import Mathlib

/-!
Verification development for the EverfitAPI repository.

The Python sources (`everfit_api.py`, `upload_exercises_to_everfit.py`) are
shallowly embedded below.  Spreadsheet cells become the inductive `Cell`
(`na` stands for pandas NaN / Python None), Python dictionaries of strings
become association lists, HTTP traffic is abstracted by an oracle that yields
one outcome per request, and fallible code returns `Except PyError`.
The lookup tables live in `everfit_config.py`, which is not part of the
sources; `get_payload` is therefore parametrised by the tables, and the one
table whose content matters (the modality map) is modelled from the spec.
-/

namespace Everfit

/-- Whitespace as recognised by Python's `str.strip` and the regex `\s`
(restricted to the characters that occur in the data). -/
def isWsp (c : Char) : Bool :=
  c = ' ' || c = '\t' || c = '\n' || c = '\r'

/-- Python `str.strip()`: drop leading and trailing whitespace. -/
def pyStrip (s : String) : String :=
  String.mk (((s.toList.dropWhile isWsp).reverse.dropWhile isWsp).reverse)

/-- Helper for `pySplitChar`: walk the characters, cutting at `sep`.
`cur` holds the characters of the current piece in reverse. -/
def pySplitCharList (sep : Char) : List Char → List Char → List String
  | [], cur => [String.mk cur.reverse]
  | c :: cs, cur =>
    if c = sep then String.mk cur.reverse :: pySplitCharList sep cs []
    else pySplitCharList sep cs (c :: cur)

/-- Python `s.split(sep)` for a one-character separator
(so `"".split(sep) = [""]`, and separators at the ends yield empty pieces). -/
def pySplitChar (sep : Char) (s : String) : List String :=
  pySplitCharList sep s.toList []

/-- The normalisation `value.lower().replace(" ", "")` applied to every
lookup key in `everfit_api.py`. -/
def normalizeKey (s : String) : String :=
  String.mk ((s.toList.map Char.toLower).filter (fun c => c ≠ ' '))

/-- A spreadsheet / dictionary scalar: missing (NaN or None), a string, or a
number.  Numbers are modelled as integers. -/
inductive Cell where
  | na
  | str (s : String)
  | num (n : Int)
deriving DecidableEq

/-- `pd.isna(value) or value is None`. -/
def cellIsNa : Cell → Bool
  | .na => true
  | _ => false

/-- `safe_str` from `everfit_api.py`: NaN/None becomes the default `""`,
anything else is `str(value)`. -/
def safeStr : Cell → String
  | .na => ""
  | .str s => s
  | .num n => toString n

/-- Python `str(value)` (NaN stringifies to `"nan"`). -/
def cellPyStr : Cell → String
  | .na => "nan"
  | .str s => s
  | .num n => toString n

/-- The skip condition `pd.isna(x) or x is None or x == ""` used for movement
patterns and muscle groups. -/
def cellBlank : Cell → Bool
  | .na => true
  | .str s => s = ""
  | .num _ => false

/-- Pandas elementwise `==` against a scalar: NaN compares unequal to
everything, including NaN. -/
def cellEqB : Cell → Cell → Bool
  | .na, _ => false
  | _, .na => false
  | a, b => a = b

/-- Lookup in a string-keyed dictionary modelled as an association list. -/
def dictGet? (m : List (String × String)) (k : String) : Option String :=
  (m.find? (fun p => p.1 = k)).map (fun p => p.2)

/-- Python dict insertion: update the value in place if the key exists,
otherwise append the binding. -/
def dictInsert (m : List (String × String)) (k v : String) : List (String × String) :=
  if m.any (fun p => p.1 = k) then m.map (fun p => if p.1 = k then (k, v) else p)
  else m ++ [(k, v)]

/-- A single-quote character, used in the error messages of `get_payload`. -/
def sq : String := String.singleton (Char.ofNat 39)

/-- The Python exceptions our embedding distinguishes. -/
inductive PyError where
  | valueError (msg : String)
  | keyError (k : String)
  | attributeError
  | typeError
  | exception (msg : String)
deriving DecidableEq

/-- One entry of the `movement_patterns` / `muscle_groups` payload lists:
`{"is_primary": idx == 0, "movement_pattern"/"muscle_group": id}`. -/
structure GroupEntry where
  is_primary : Bool
  gid : String
deriving DecidableEq

/-- The exercise-record dictionary consumed by `get_payload`.  `modality` is
`none` for NaN/None (a missing key yields `""`, i.e. `some ""`). -/
structure ExerciseInfo where
  exercise_name : Cell
  instructions : Cell
  modality : Option String
  category : Cell
  movement_patterns : List Cell
  muscle_groups : List Cell
  tracking_fields : List String
  video_link : Cell
  tags : List String
deriving DecidableEq

/-- The lookup tables imported from `everfit_config.py` (not under the
sources; `get_payload` is parametrised by them). -/
structure LookupTables where
  categoryMap : List (String × String)
  modalityMap : List (String × String)
  movementMap : List (String × String)
  muscleMap : List (String × String)
  trackingMap : List (String × String)

/-- The payload dictionary assembled by `get_payload` (the constant author /
media fields are omitted; they are string literals in the source). -/
structure Payload where
  title : String
  instructions : List String
  category_type : String
  category_type_name : Cell
  modality : String
  movement_patterns : List GroupEntry
  muscle_groups : List GroupEntry
  fields : List String
  videoLink : String
  tags : List (Option String)
deriving DecidableEq

/-- The modality section of `get_payload`: NaN/None keeps the default id,
a blank string is replaced by the literal `"empty"` before the lookup, and a
key missing from the map (or mapped to `""`) raises
`Exception(f"Modality … not recognized.")`. -/
def resolveModality (m : List (String × String)) : Option String → Except PyError String
  | none => .ok "66013e83b117d35345209b07"
  | some s =>
    let s' := if pyStrip s = "" then "empty" else s
    let v := (dictGet? m (normalizeKey s')).getD ""
    if v = "" then .error (.exception ("Modality " ++ s' ++ " not recognized."))
    else .ok v

/-- The movement-pattern / muscle-group loop of `get_payload`: `idx` is the
enumerate index over the input, blanks are skipped, an unresolved non-blank
entry raises, an id already in the accumulator is skipped, and a fresh id is
appended with `is_primary := idx == 0`. -/
def resolveGroup (m : List (String × String)) (label : String) :
    Nat → List Cell → List GroupEntry → Except PyError (List GroupEntry)
  | _, [], acc => .ok acc
  | idx, c :: cs, acc =>
    if cellBlank c then resolveGroup m label (idx + 1) cs acc
    else
      let gid := (dictGet? m (normalizeKey (safeStr c))).getD ""
      if gid = "" then
        .error (.exception (label ++ " " ++ sq ++ safeStr c ++ sq ++ " not recognized."))
      else if acc.any (fun d => d.gid = gid) then resolveGroup m label (idx + 1) cs acc
      else resolveGroup m label (idx + 1) cs (acc ++ [⟨idx = 0, gid⟩])

/-- `create_tag_mappings`: fold the fetched tag list (name, id pairs) into a
dictionary. -/
def createTagMappings (tagList : List (String × String)) : List (String × String) :=
  tagList.foldl (fun m t => dictInsert m t.1 t.2) []

/-- The tag loop of `get_payload`.  `seen` is `seen_tags`.  Returns the
payload's `tags` list (entries are `none` when `create_new_tag_id` failed)
together with the names for which a create-tag request was issued, in order. -/
def processTags (mappings : List (String × String)) (createId : String → Option String) :
    List String → List String → List (Option String) × List String
  | [], _ => ([], [])
  | t :: rest, seen =>
    if t = "" ∨ t ∈ seen then processTags mappings createId rest seen
    else
      let r := processTags mappings createId rest (seen ++ [t])
      match dictGet? mappings t with
      | some tid => (some tid :: r.1, r.2)
      | none => (createId t :: r.1, t :: r.2)

/-- The tracking-fields loop: look up each normalised token, keep only truthy
ids, and always append the fixed "Rest" field id last. -/
def resolveFields (m : List (String × String)) (fields : List String) : List String :=
  (fields.foldl
    (fun acc f =>
      let v := (dictGet? m (normalizeKey f)).getD ""
      if v = "" then acc else acc ++ [v]) []) ++ ["5cd912bb19ae01d22ea76011"]

/-- `get_payload` from `everfit_api.py`.  The HTTP side is abstracted:
`tagList` is the (name, id) list fetched once via `get_tag_list` (already
defaulted to `[]` on failure) and `createId` is the result of
`create_new_tag_id` per tag name. -/
def getPayload (lt : LookupTables) (tagList : List (String × String))
    (createId : String → Option String) (info : ExerciseInfo) :
    Except PyError Payload :=
  let title := safeStr info.exercise_name
  let instrs :=
    if cellIsNa info.instructions then []
    else pySplitChar (Char.ofNat 10) (safeStr info.instructions)
  let vlink := if cellIsNa info.video_link then "" else safeStr info.video_link
  let cat := if cellIsNa info.category then Cell.str "strength" else info.category
  let category_type :=
    (dictGet? lt.categoryMap (normalizeKey (safeStr cat))).getD "5cd912c319ae01d22ea76012"
  match resolveModality lt.modalityMap info.modality with
  | .error e => .error e
  | .ok modId =>
    match resolveGroup lt.movementMap "Movement pattern" 0 info.movement_patterns [] with
    | .error e => .error e
    | .ok mps =>
      match resolveGroup lt.muscleMap "Muscle group" 0 info.muscle_groups [] with
      | .error e => .error e
      | .ok mgs =>
        .ok { title := title, instructions := instrs, category_type := category_type,
              category_type_name := cat, modality := modId, movement_patterns := mps,
              muscle_groups := mgs,
              fields := resolveFields lt.trackingMap info.tracking_fields,
              videoLink := vlink,
              tags := (processTags (createTagMappings tagList) createId info.tags []).1 }

/-- Modelled from the spec: `MODALITY_MAP` from the missing `everfit_config.py`.
The spec requires that a blank/absent modality keeps the default identifier
while the code routes blanks through the key `"empty"`, so the modelled map
binds `"empty"` to the default modality id; the other entries are the
glossary's example modalities. -/
def MODALITY_MAP_model : List (String × String) :=
  [("empty", "66013e83b117d35345209b07"),
   ("bodyweight", "66013e83b117d35345209b01"),
   ("dumbbell", "66013e83b117d35345209b02")]

/-- A `create_new_tag_id` stand-in that always fails (returns `None`). -/
def noCreate : String → Option String := fun _ => none

/-- `Except.isOk` specialised to our error type. -/
def exOk {α : Type} : Except PyError α → Bool
  | .ok _ => true
  | .error _ => false

/-! ## The spreadsheet reader and the upload loop (`upload_exercises_to_everfit.py`) -/

/-- The regex substitution `re.sub(r"^\d+\.\s*", "", s)`: strip a leading run
of digits followed by a dot and any whitespace; otherwise leave `s` alone. -/
def stripNumbering (s : String) : String :=
  let l := s.toList
  let ds := l.takeWhile Char.isDigit
  if ds.isEmpty then s
  else
    match l.drop ds.length with
    | c :: rest => if c = Char.ofNat 46 then String.mk (rest.dropWhile isWsp) else s
    | [] => s

/-- `itertools.zip_longest(as, bs, fillvalue=fill)`. -/
def zipLongest (fill : String) : List String → List String → List (String × String)
  | [], bs => bs.map (fun b => (fill, b))
  | a :: as, bs => (a, bs.headD fill) :: zipLongest fill as bs.tail

/-- Python `sep.join(pieces)`. -/
def joinSep (sep : String) : List String → String
  | [] => ""
  | a :: rest => rest.foldl (fun acc x => acc ++ sep ++ x) a

/-- `" | ".join(p for p in (eng, spa) if p)`. -/
def pairJoin (a b : String) : String :=
  joinSep " | " (([a, b]).filter (fun x => x ≠ ""))

/-- `safe_string_split` from the upload script: NaN or `""` yields `[]`,
otherwise split `str(value)` on `";"`, strip each piece, drop empty pieces. -/
def safeStringSplit (v : Cell) : List String :=
  if cellIsNa v || v = Cell.str "" then []
  else ((pySplitChar (Char.ofNat 59) (cellPyStr v)).map pyStrip).filter (fun p => p ≠ "")

/-- The bilingual-instructions assembly of the upload script: split both
cells, strip numbering, pair positionally with `zip_longest`, join each pair
with `" | "` (dropping empty sides), and join the lines with newlines. -/
def buildInstructionsBlob (eng spa : Cell) : String :=
  let e := (safeStringSplit eng).map stripNumbering
  let s := (safeStringSplit spa).map stripNumbering
  joinSep (String.singleton (Char.ofNat 10))
    ((zipLongest "" e s).map (fun p => pairJoin p.1 p.2))

/-- One spreadsheet row.  The columns the script reads are explicit; every
other column is bundled opaquely in `rest`. -/
structure Row (ρ : Type) where
  name : Cell
  uploaded : Cell
  instructions : Cell
  spanishInstructions : Cell
  movementPatterns : Cell
  muscleGroup : Cell
  trackingFields : Cell
  exerciseTags : Cell
  videoLink : Cell
  rest : ρ

/-- The per-row record assembly of the upload script (the dictionary passed
to `get_payload`): modality and category are hard-coded `""`. -/
def rowToInfo {ρ : Type} (r : Row ρ) : ExerciseInfo :=
  { exercise_name := r.name
  , instructions := Cell.str (buildInstructionsBlob r.instructions r.spanishInstructions)
  , modality := some ""
  , category := Cell.str ""
  , movement_patterns := (safeStringSplit r.movementPatterns).map Cell.str
  , muscle_groups := (safeStringSplit r.muscleGroup).map Cell.str
  , tracking_fields := safeStringSplit r.trackingFields
  , video_link := Cell.str (cellPyStr r.videoLink)
  , tags := safeStringSplit r.exerciseTags }

/-- The row-filtering loop of the upload script: a NaN uploaded flag counts
as 0, a flag equal to 1 skips the row, and a NaN or empty name skips the
row; all surviving rows are kept in order. -/
def collectRecords {ρ : Type} : List (Row ρ) → List (Row ρ)
  | [] => []
  | r :: rs =>
    if (if cellIsNa r.uploaded then Cell.num 0 else r.uploaded) = Cell.num 1 then
      collectRecords rs
    else if cellIsNa r.name ∨ r.name = Cell.str "" then collectRecords rs
    else r :: collectRecords rs

/-- The effect of `df.loc[df["Name"] == name, "Everfit Uploaded"] = 1` on a
single row: set the uploaded flag when the name cell compares equal (pandas
`==`) to `n`. -/
def markRow {ρ : Type} (n : Cell) (r : Row ρ) : Row ρ :=
  if cellEqB r.name n then { r with uploaded := Cell.num 1 } else r

/-- `df.loc[df["Name"] == name, "Everfit Uploaded"] = 1` over the whole
sheet. -/
def markUploaded {ρ : Type} (n : Cell) (rows : List (Row ρ)) : List (Row ρ) :=
  rows.map (markRow n)

/-- The upload loop: records are extracted from the original rows first; for
each record in order, a payload is attempted and — when `post_exercise`
reports success (`postOk i` for the i-th record) — every row sharing the
record's name is flagged.  The rows are saved once at the end. -/
def runUpload {ρ : Type} (lt : LookupTables) (tagList : List (String × String))
    (createId : String → Option String) (postOk : Nat → Bool)
    (rows : List (Row ρ)) : List (Row ρ) :=
  ((collectRecords rows).enum).foldl
    (fun acc p =>
      match getPayload lt tagList createId (rowToInfo p.2) with
      | .error _ => acc
      | .ok _ => if postOk p.1 then markUploaded p.2.name acc else acc)
    rows

/-- The names (cells) of the records whose upload succeeded during
`runUpload`, in order. -/
def successNames {ρ : Type} (lt : LookupTables) (tagList : List (String × String))
    (createId : String → Option String) (postOk : Nat → Bool)
    (rows : List (Row ρ)) : List Cell :=
  (((collectRecords rows).enum).filter
    (fun p => exOk (getPayload lt tagList createId (rowToInfo p.2)) && postOk p.1)).map
    (fun p => p.2.name)

/-- The projection of a row onto every column other than the uploaded flag. -/
def otherColumns {ρ : Type} (r : Row ρ) :
    Cell × Cell × Cell × Cell × Cell × Cell × Cell × Cell × ρ :=
  (r.name, r.instructions, r.spanishInstructions, r.movementPatterns,
   r.muscleGroup, r.trackingFields, r.exerciseTags, r.videoLink, r.rest)

/-- Stated from the claim's words (C6): a row is kept exactly when its
uploaded flag does not equal 1 and its name cell is neither missing nor
empty. -/
def claimEligible {ρ : Type} (r : Row ρ) : Bool :=
  !(r.uploaded = Cell.num 1 : Bool) && !(cellIsNa r.name || r.name = Cell.str "")

/-- Stated from the claim's words (C4): deduplicate a list of names by exact
string comparison, keeping the first occurrence of each; `seen` accumulates
the names already kept. -/
def dedupFirstAux : List String → List String → List String
  | [], _ => []
  | t :: rest, seen =>
    if t ∈ seen then dedupFirstAux rest seen else t :: dedupFirstAux rest (t :: seen)

/-- Stated from the claim's words (C4): order-preserving exact-string
deduplication. -/
def dedupFirst (l : List String) : List String := dedupFirstAux l []

/-! ## The API client (`login`, `put_exercise`, `post_exercise`,
`get_exercises`, `get_tag_list`, `create_new_tag_id`)

Each operation performs one or two HTTP requests; the network is abstracted
by an oracle assigning an outcome to the k-th request of the call.  A
`RequestException` (covering transport errors and, via `raise_for_status`,
non-2xx statuses) and a `ValueError` from `.json()` are the two failure
outcomes; otherwise the parsed JSON body is delivered. -/

/-- A parsed JSON value. -/
inductive Json where
  | null
  | str (s : String)
  | num (n : Int)
  | bool (b : Bool)
  | arr (xs : List Json)
  | obj (fields : List (String × Json))

/-- Key lookup in a JSON object's field list (Python dict access). -/
def jLookup (fields : List (String × Json)) (k : String) : Option Json :=
  (fields.find? (fun p => p.1 = k)).map (fun p => p.2)

/-- Python truthiness of a JSON value. -/
def jTruthy : Json → Bool
  | .null => false
  | .str s => s ≠ ""
  | .num n => n ≠ 0
  | .bool b => b
  | .arr xs => !xs.isEmpty
  | .obj fs => !fs.isEmpty

/-- Whether a JSON value is an object (a Python dict). -/
def jIsObj : Json → Bool
  | .obj _ => true
  | _ => false

/-- The outcome of one HTTP request: a transport/status failure, a body that
fails to parse as JSON, or a parsed body. -/
inductive HttpOutcome where
  | netErr
  | badJson
  | json (v : Json)

/-- Whether an `Except` result is a raised `ValueError` (input validation). -/
def exIsValueError {α : Type} : Except PyError α → Bool
  | .error (.valueError _) => true
  | _ => false

/-- `login`: validate the credentials, POST once, return the token when the
response object carries a truthy `token` field.  The second component counts
the requests made. -/
def loginM (email password : String) (resp : Nat → HttpOutcome) :
    Except PyError (Option Json) × Nat :=
  if pyStrip email = "" then (.error (.valueError "Email must be a non-empty string."), 0)
  else if pyStrip password = "" then
    (.error (.valueError "Password must be a non-empty string."), 0)
  else
    match resp 0 with
    | .netErr => (.ok none, 1)
    | .badJson => (.ok none, 1)
    | .json v =>
      match v with
      | .obj fs =>
        let tok := (jLookup fs "token").getD .null
        if jTruthy tok then (.ok (some tok), 1) else (.ok none, 1)
      | _ => (.error .attributeError, 1)

/-- `put_exercise`: validate payload then token, PUT once, return the parsed
body. -/
def putExerciseM (accessToken exerciseId : String) (payload : Json)
    (resp : Nat → HttpOutcome) : Except PyError (Option Json) × Nat :=
  if !jIsObj payload then (.error (.valueError "Payload must be a dictionary."), 0)
  else if pyStrip accessToken = "" then
    (.error (.valueError "Access token must be a non-empty string."), 0)
  else
    match resp 0 with
    | .netErr => (.ok none, 1)
    | .badJson => (.ok none, 1)
    | .json v => (.ok (some v), 1)

/-- `post_exercise`: validate payload then token, POST once, return the
parsed body. -/
def postExerciseM (payload : Json) (accessToken : String)
    (resp : Nat → HttpOutcome) : Except PyError (Option Json) × Nat :=
  if !jIsObj payload then (.error (.valueError "Payload must be a dictionary."), 0)
  else if pyStrip accessToken = "" then
    (.error (.valueError "Access token must be a non-empty string."), 0)
  else
    match resp 0 with
    | .netErr => (.ok none, 1)
    | .badJson => (.ok none, 1)
    | .json v => (.ok (some v), 1)

/-- `get_exercises`: validate the token, fetch the total, refetch with the
total as page size, and return `data["data"]` of the second body — an access
outside any try/except, so a missing key propagates a `KeyError`. -/
def getExercisesM (accessToken : String) (resp : Nat → HttpOutcome) :
    Except PyError (Option Json) × Nat :=
  if pyStrip accessToken = "" then
    (.error (.valueError "Access token must be a non-empty string."), 0)
  else
    match resp 0 with
    | .netErr => (.ok none, 1)
    | .badJson => (.ok none, 1)
    | .json v =>
      match v with
      | .obj fs =>
        match (jLookup fs "total").getD (.num 0) with
        | .num n =>
          if n ≤ 0 then (.ok none, 1)
          else
            match resp 1 with
            | .netErr => (.ok none, 2)
            | .badJson => (.ok none, 2)
            | .json v2 =>
              match v2 with
              | .obj fs2 =>
                match jLookup fs2 "data" with
                | some d => (.ok (some d), 2)
                | none => (.error (.keyError "data"), 2)
              | _ => (.error .typeError, 2)
        | _ => (.ok none, 1)
      | _ => (.error .attributeError, 1)

/-- `get_tag_list`: validate the token, fetch the total (returning `[]` when
it is not a positive integer), then refetch with the total as page size and
return `data["data"]["data"]`, defaulting missing layers to `{}` / `[]`.
Only `ValueError` is caught around the body handling, so a non-object where
a dict is expected propagates an `AttributeError`. -/
def getTagListM (accessToken : String) (resp : Nat → HttpOutcome) :
    Except PyError (Option Json) × Nat :=
  if pyStrip accessToken = "" then
    (.error (.valueError "Access token must be a non-empty string."), 0)
  else
    match resp 0 with
    | .netErr => (.ok none, 1)
    | .badJson => (.ok none, 1)
    | .json v =>
      match v with
      | .obj fs =>
        match (jLookup fs "data").getD (.obj []) with
        | .obj dfs =>
          match (jLookup dfs "total").getD (.num 0) with
          | .num n =>
            if n ≤ 0 then (.ok (some (.arr [])), 1)
            else
              match resp 1 with
              | .netErr => (.ok none, 2)
              | .badJson => (.ok none, 2)
              | .json v2 =>
                match v2 with
                | .obj fs2 =>
                  match (jLookup fs2 "data").getD (.obj []) with
                  | .obj d2 => (.ok (some ((jLookup d2 "data").getD (.arr []))), 2)
                  | _ => (.error .attributeError, 2)
                | _ => (.error .attributeError, 2)
          | _ => (.ok (some (.arr [])), 1)
        | _ => (.error .attributeError, 1)
      | _ => (.error .attributeError, 1)

/-- `create_new_tag_id`: validate token and tag name, POST once, and return
`data["data"]["_id"]` when truthy. -/
def createNewTagIdM (accessToken tag : String) (resp : Nat → HttpOutcome) :
    Except PyError (Option Json) × Nat :=
  if pyStrip accessToken = "" then
    (.error (.valueError "Access token must be a non-empty string."), 0)
  else if pyStrip tag = "" then
    (.error (.valueError "Tag name must be a non-empty string."), 0)
  else
    match resp 0 with
    | .netErr => (.ok none, 1)
    | .badJson => (.ok none, 1)
    | .json v =>
      match v with
      | .obj fs =>
        match (jLookup fs "data").getD (.obj []) with
        | .obj tfs =>
          let tid := (jLookup tfs "_id").getD .null
          if jTruthy tid then (.ok (some tid), 1) else (.ok none, 1)
        | _ => (.error .attributeError, 1)
      | _ => (.error .attributeError, 1)

/-! ## Helper lemmas -/

theorem uploadedCheck_eq (u : Cell) :
    ((if cellIsNa u then Cell.num 0 else u) = Cell.num 1) ↔ (u = Cell.num 1) := by
  cases u <;> simp [cellIsNa]

theorem otherColumns_markRow {ρ : Type} (n : Cell) (r : Row ρ) :
    otherColumns (markRow n r) = otherColumns r := by
  unfold markRow
  split <;> rfl

theorem map_otherColumns_markUploaded {ρ : Type} (n : Cell) (rows : List (Row ρ)) :
    (markUploaded n rows).map otherColumns = rows.map otherColumns := by
  induction rows with
  | nil => rfl
  | cons r rs ih =>
    simp only [markUploaded, List.map_cons] at ih ⊢
    rw [otherColumns_markRow, ih]

theorem foldStep_other {ρ : Type} (lt : LookupTables) (tagList : List (String × String))
    (createId : String → Option String) (postOk : Nat → Bool) :
    ∀ (l : List (Nat × Row ρ)) (acc : List (Row ρ)),
      (l.foldl
        (fun acc p =>
          match getPayload lt tagList createId (rowToInfo p.2) with
          | .error _ => acc
          | .ok _ => if postOk p.1 then markUploaded p.2.name acc else acc)
        acc).map otherColumns = acc.map otherColumns := by
  intro l
  induction l with
  | nil => intro acc; rfl
  | cons p l ih =>
    intro acc
    rw [List.foldl_cons, ih]
    cases getPayload lt tagList createId (rowToInfo p.2) with
    | error e => rfl
    | ok q =>
      by_cases h : postOk p.1 = true
      · simp only [h, if_true]
        exact map_otherColumns_markUploaded _ _
      · simp only [Bool.not_eq_true] at h
        simp only [h, Bool.false_eq_true, if_false]

theorem foldStep_marks {ρ : Type} (lt : LookupTables) (tagList : List (String × String))
    (createId : String → Option String) (postOk : Nat → Bool) :
    ∀ (l : List (Nat × Row ρ)) (acc : List (Row ρ)),
      l.foldl
        (fun acc p =>
          match getPayload lt tagList createId (rowToInfo p.2) with
          | .error _ => acc
          | .ok _ => if postOk p.1 then markUploaded p.2.name acc else acc)
        acc =
      ((l.filter
          (fun p => exOk (getPayload lt tagList createId (rowToInfo p.2)) && postOk p.1)).map
        (fun p => p.2.name)).foldl (fun a n => markUploaded n a) acc := by
  intro l
  induction l with
  | nil => intro acc; rfl
  | cons p l ih =>
    intro acc
    rw [List.foldl_cons, List.filter_cons]
    cases hp : getPayload lt tagList createId (rowToInfo p.2) with
    | error e =>
      simp only [hp, exOk, Bool.false_and, if_false]
      exact ih acc
    | ok q =>
      by_cases h : postOk p.1 = true
      · simp only [hp, exOk, h, Bool.and_self, if_true, List.map_cons, List.foldl_cons]
        exact ih _
      · simp only [Bool.not_eq_true] at h
        simp only [hp, exOk, h, Bool.true_and, Bool.false_eq_true, if_false]
        exact ih acc

theorem runUpload_eq_marks {ρ : Type} (lt : LookupTables) (tagList : List (String × String))
    (createId : String → Option String) (postOk : Nat → Bool) (rows : List (Row ρ)) :
    runUpload lt tagList createId postOk rows =
      (successNames lt tagList createId postOk rows).foldl
        (fun a n => markUploaded n a) rows := by
  unfold runUpload successNames
  exact foldStep_marks lt tagList createId postOk _ rows

theorem getElem?_foldMark {ρ : Type} :
    ∀ (names : List Cell) (rows : List (Row ρ)) (i : Nat),
      (names.foldl (fun a n => markUploaded n a) rows)[i]? =
        (rows[i]?).map (fun r => names.foldl (fun r n => markRow n r) r) := by
  intro names
  induction names with
  | nil =>
    intro rows i
    simp
  | cons n ns ih =>
    intro rows i
    rw [List.foldl_cons, ih, markUploaded, List.getElem?_map, Option.map_map]
    rfl

theorem markRow_name {ρ : Type} (n : Cell) (r : Row ρ) : (markRow n r).name = r.name := by
  unfold markRow
  split <;> rfl

theorem foldRow_uploaded_stays {ρ : Type} :
    ∀ (names : List Cell) (r : Row ρ), r.uploaded = Cell.num 1 →
      (names.foldl (fun r n => markRow n r) r).uploaded = Cell.num 1 := by
  intro names
  induction names with
  | nil => intro r h; exact h
  | cons m ms ih =>
    intro r h
    rw [List.foldl_cons]
    apply ih
    unfold markRow
    split
    · rfl
    · exact h

theorem foldRow_marks {ρ : Type} :
    ∀ (names : List Cell) (r : Row ρ), (∃ n ∈ names, cellEqB r.name n = true) →
      (names.foldl (fun r n => markRow n r) r).uploaded = Cell.num 1 := by
  intro names
  induction names with
  | nil =>
    intro r h
    rcases h with ⟨n, hn, _⟩
    exact absurd hn (List.not_mem_nil n)
  | cons m ms ih =>
    intro r h
    rw [List.foldl_cons]
    by_cases hm : cellEqB r.name m = true
    · apply foldRow_uploaded_stays
      unfold markRow
      rw [hm]
      simp
    · have hr : markRow m r = r := by
        unfold markRow
        simp only [Bool.not_eq_true] at hm
        simp [hm]
      rw [hr]
      apply ih
      rcases h with ⟨n, hn, hcell⟩
      rcases List.mem_cons.mp hn with h1 | h1
      · exact absurd (h1 ▸ hcell) hm
      · exact ⟨n, h1, hcell⟩

theorem foldRow_other {ρ : Type} :
    ∀ (names : List Cell) (r : Row ρ),
      otherColumns (names.foldl (fun r n => markRow n r) r) = otherColumns r := by
  intro names
  induction names with
  | nil => intro r; rfl
  | cons m ms ih =>
    intro r
    rw [List.foldl_cons, ih, otherColumns_markRow]

/-! ## C6: row filtering -/

/-- C6: every spreadsheet row whose uploaded flag equals 1, and every row
whose name cell is missing or empty, is excluded from the record sequence
given to the payload mapper; all remaining rows are included, in
spreadsheet order. -/
theorem collectRecords_cons {ρ : Type} (r : Row ρ) (rs : List (Row ρ)) :
    collectRecords (r :: rs) =
      if (if cellIsNa r.uploaded then Cell.num 0 else r.uploaded) = Cell.num 1 then
        collectRecords rs
      else if cellIsNa r.name ∨ r.name = Cell.str "" then collectRecords rs
      else r :: collectRecords rs := rfl

theorem claimEligible_iff {ρ : Type} (r : Row ρ) :
    claimEligible r = true ↔
      ¬ r.uploaded = Cell.num 1 ∧ ¬ (cellIsNa r.name = true ∨ r.name = Cell.str "") := by
  simp [claimEligible, not_or]

theorem C6_collectRecords_filter {ρ : Type} (rows : List (Row ρ)) :
    collectRecords rows = rows.filter claimEligible := by
  induction rows with
  | nil => rfl
  | cons r rs ih =>
    rw [List.filter_cons, collectRecords_cons]
    by_cases h1 : r.uploaded = Cell.num 1
    · rw [if_pos ((uploadedCheck_eq r.uploaded).mpr h1)]
      have he : ¬ claimEligible r = true := by
        rw [claimEligible_iff]
        intro hc
        exact hc.1 h1
      simp only [Bool.not_eq_true] at he
      rw [he, if_neg]
      · exact ih
      · simp
    · rw [if_neg (fun hc => h1 ((uploadedCheck_eq r.uploaded).mp hc))]
      by_cases h2 : cellIsNa r.name = true ∨ r.name = Cell.str ""
      · rw [if_pos h2]
        have he : ¬ claimEligible r = true := by
          rw [claimEligible_iff]
          intro hc
          exact hc.2 h2
        simp only [Bool.not_eq_true] at he
        rw [he, if_neg]
        · exact ih
        · simp
      · rw [if_neg h2]
        have he : claimEligible r = true := (claimEligible_iff r).mpr ⟨h1, h2⟩
        rw [he, if_pos rfl, ih]

/-! ## C8: the write-back changes only the flag column -/

/-- C8: writing the sheet back at the end of the run changes only the
uploaded-flag column — for every row, every other column's value is the one
read from the original sheet (same rows, same order). -/
theorem C8_only_flag_changes {ρ : Type} (lt : LookupTables)
    (tagList : List (String × String)) (createId : String → Option String)
    (postOk : Nat → Bool) (rows : List (Row ρ)) :
    (runUpload lt tagList createId postOk rows).map otherColumns =
      rows.map otherColumns := by
  unfold runUpload
  exact foldStep_other lt tagList createId postOk _ rows

/-! ## C10: marking by name reaches every row with that name -/

/-- C10: after a successful upload of a record named N, the uploaded flag is
set on every row whose name equals N — not only the row the record came
from — while all its other columns stay unchanged. -/
theorem C10_mark_all_rows_with_name {ρ : Type} (lt : LookupTables)
    (tagList : List (String × String)) (createId : String → Option String)
    (postOk : Nat → Bool) (rows : List (Row ρ)) (i : Nat) (r : Row ρ)
    (hrow : rows[i]? = some r)
    (hname : ∃ n ∈ successNames lt tagList createId postOk rows, cellEqB r.name n = true) :
    ((runUpload lt tagList createId postOk rows)[i]?).map (fun q => q.uploaded) =
        some (Cell.num 1) ∧
      ((runUpload lt tagList createId postOk rows)[i]?).map otherColumns =
        some (otherColumns r) := by
  rw [runUpload_eq_marks, getElem?_foldMark, hrow]
  simp only [Option.map_some']
  exact ⟨by rw [foldRow_marks _ r hname], by rw [foldRow_other _ r]⟩

/-- Witness for C10: two rows both named "X"; the first record uploads
successfully, the second fails, yet the second row ends up flagged. -/
theorem C10_witness :
    ((runUpload ⟨[], MODALITY_MAP_model, [], [], []⟩ [] noCreate (fun i => i == 0)
        [⟨Cell.str "X", Cell.num 0, Cell.str "", Cell.str "", Cell.str "", Cell.str "",
          Cell.str "", Cell.str "", Cell.str "", ()⟩,
         ⟨Cell.str "X", Cell.num 0, Cell.str "", Cell.str "", Cell.str "", Cell.str "",
          Cell.str "", Cell.str "", Cell.str "", ()⟩])[1]?).map (fun q => q.uploaded) =
      some (Cell.num 1) :=
  (C10_mark_all_rows_with_name ⟨[], MODALITY_MAP_model, [], [], []⟩ [] noCreate
    (fun i => i == 0)
    [⟨Cell.str "X", Cell.num 0, Cell.str "", Cell.str "", Cell.str "", Cell.str "",
      Cell.str "", Cell.str "", Cell.str "", ()⟩,
     ⟨Cell.str "X", Cell.num 0, Cell.str "", Cell.str "", Cell.str "", Cell.str "",
      Cell.str "", Cell.str "", Cell.str "", ()⟩] 1
    ⟨Cell.str "X", Cell.num 0, Cell.str "", Cell.str "", Cell.str "", Cell.str "",
      Cell.str "", Cell.str "", Cell.str "", ()⟩ (by rfl)
    ⟨Cell.str "X", by decide, by decide⟩).1

/-! ## Decomposing `getPayload` -/

theorem getPayload_ok_parts {lt : LookupTables} {tagList : List (String × String)}
    {createId : String → Option String} {info : ExerciseInfo} {p : Payload}
    (h : getPayload lt tagList createId info = .ok p) :
    resolveModality lt.modalityMap info.modality = .ok p.modality ∧
    resolveGroup lt.movementMap "Movement pattern" 0 info.movement_patterns [] =
      .ok p.movement_patterns ∧
    resolveGroup lt.muscleMap "Muscle group" 0 info.muscle_groups [] =
      .ok p.muscle_groups ∧
    p.instructions =
      (if cellIsNa info.instructions then []
       else pySplitChar (Char.ofNat 10) (safeStr info.instructions)) ∧
    p.tags = (processTags (createTagMappings tagList) createId info.tags []).1 := by
  unfold getPayload at h
  cases hm : resolveModality lt.modalityMap info.modality with
  | error e => rw [hm] at h; simp at h
  | ok modId =>
    rw [hm] at h
    cases hmp : resolveGroup lt.movementMap "Movement pattern" 0 info.movement_patterns [] with
    | error e => rw [hmp] at h; simp at h
    | ok mps =>
      rw [hmp] at h
      cases hmg : resolveGroup lt.muscleMap "Muscle group" 0 info.muscle_groups [] with
      | error e => rw [hmg] at h; simp at h
      | ok mgs =>
        rw [hmg] at h
        simp only [Except.ok.injEq] at h
        subst h
        refine ⟨?_, ?_, ?_, rfl, rfl⟩
        · simpa using hm
        · simpa using hmp
        · simpa using hmg

theorem getPayload_modality_error {lt : LookupTables} {tagList : List (String × String)}
    {createId : String → Option String} {info : ExerciseInfo} {e : PyError}
    (h : resolveModality lt.modalityMap info.modality = .error e) :
    getPayload lt tagList createId info = .error e := by
  unfold getPayload
  rw [h]

/-! ## C2: modality resolution -/

/-- C2: a present, non-blank modality whose normalisation is absent from the
modality table makes `get_payload` raise an error naming the value; a
NaN/None modality keeps the default identifier; a blank/absent modality is
routed through the `"empty"` key, which the modelled table binds to the
default identifier; and the resolved modality is exactly what the payload
carries, with a resolution error propagating out of `get_payload`. -/
theorem C2_modality_handling :
    (∀ (m : List (String × String)) (s : String), pyStrip s ≠ "" →
      dictGet? m (normalizeKey s) = none →
      resolveModality m (some s) =
        .error (.exception ("Modality " ++ s ++ " not recognized."))) ∧
    (∀ m : List (String × String), resolveModality m none = .ok "66013e83b117d35345209b07") ∧
    (resolveModality MODALITY_MAP_model (some "") = .ok "66013e83b117d35345209b07") ∧
    (∀ (lt : LookupTables) (tagList : List (String × String))
      (createId : String → Option String) (info : ExerciseInfo) (p : Payload),
      getPayload lt tagList createId info = .ok p →
      resolveModality lt.modalityMap info.modality = .ok p.modality) ∧
    (∀ (lt : LookupTables) (tagList : List (String × String))
      (createId : String → Option String) (info : ExerciseInfo) (e : PyError),
      resolveModality lt.modalityMap info.modality = .error e →
      getPayload lt tagList createId info = .error e) := by
  refine ⟨?_, fun m => rfl, rfl, ?_, ?_⟩
  · intro m s hs hlook
    simp only [resolveModality]
    rw [if_neg hs, hlook]
    rfl
  · intro lt tagList createId info p h
    exact (getPayload_ok_parts h).1
  · intro lt tagList createId info e h
    exact getPayload_modality_error h

/-- Witness for C2: the unknown modality "kettlebell" raises an error naming
it. -/
theorem C2_witness :
    resolveModality MODALITY_MAP_model (some "kettlebell") =
      .error (.exception ("Modality " ++ "kettlebell" ++ " not recognized.")) :=
  C2_modality_handling.1 MODALITY_MAP_model "kettlebell" (by decide) (by rfl)

/-! ## C3: the instructions field -/

theorem pySplitCharList_ne_nil (sep : Char) :
    ∀ (l cur : List Char), pySplitCharList sep l cur ≠ [] := by
  intro l
  induction l with
  | nil => intro cur; simp [pySplitCharList]
  | cons c cs ih =>
    intro cur
    unfold pySplitCharList
    by_cases h : c = sep
    · simp [h]
    · simp only [h, if_false]
      exact ih (c :: cur)

/-- C3 counterexample: a record whose instructions value is the empty string
(no instruction text) yields `[""]`, not the empty list. -/
theorem C3_counterexample :
    (getPayload ⟨[], [], [], [], []⟩ [] noCreate
      { exercise_name := .str "Ex", instructions := .str "", modality := none,
        category := .na, movement_patterns := [], muscle_groups := [],
        tracking_fields := [], video_link := .na, tags := [] }).toOption.map
      (fun p => p.instructions) = some [""] ∧ ([""] : List String) ≠ [] :=
  ⟨rfl, by decide⟩

/-- C3 amended: the payload's instructions list is empty exactly when the
record's instructions value is missing (NaN/None); any present string — the
empty string included — is split on newline characters, so a blob with no
text yields `[""]`. -/
theorem C3_instructions_amended (lt : LookupTables) (tagList : List (String × String))
    (createId : String → Option String) (info : ExerciseInfo) (ins : List String)
    (h : (getPayload lt tagList createId info).toOption.map (fun p => p.instructions) =
      some ins) :
    (ins = [] ↔ cellIsNa info.instructions = true) ∧
    (cellIsNa info.instructions = false →
      ins = pySplitChar (Char.ofNat 10) (safeStr info.instructions)) := by
  cases hp : getPayload lt tagList createId info with
  | error e => rw [hp] at h; simp [Except.toOption] at h
  | ok p =>
    rw [hp] at h
    simp only [Except.toOption, Option.map_some', Option.some.injEq] at h
    subst h
    have hins := (getPayload_ok_parts hp).2.2.2.1
    by_cases hna : cellIsNa info.instructions = true
    · rw [hna] at hins ⊢
      simp only [if_true] at hins
      simp [hins]
    · simp only [Bool.not_eq_true] at hna
      rw [hna] at hins ⊢
      simp only [Bool.false_eq_true, if_false] at hins
      constructor
      · rw [hins]
        simp only [Bool.false_eq_true, iff_false]
        exact pySplitCharList_ne_nil _ _ _
      · intro _
        exact hins

/-- Witness for C3: a two-line blob splits into its two lines. -/
theorem C3_witness :
    ((["a", "b"] : List String) = [] ↔
      cellIsNa (Cell.str "a\nb") = true) ∧
    (cellIsNa (Cell.str "a\nb") = false →
      (["a", "b"] : List String) =
        pySplitChar (Char.ofNat 10) (safeStr (Cell.str "a\nb"))) :=
  C3_instructions_amended ⟨[], [], [], [], []⟩ [] noCreate
    { exercise_name := .str "Ex", instructions := .str "a\nb", modality := none,
      category := .na, movement_patterns := [], muscle_groups := [],
      tracking_fields := [], video_link := .na, tags := [] } ["a", "b"] (by rfl)

/-! ## C1: movement-pattern / muscle-group lists -/

theorem resolveGroup_extends {m : List (String × String)} {label : String} :
    ∀ (cells : List Cell) (idx : Nat) (acc l : List GroupEntry),
      resolveGroup m label idx cells acc = .ok l → ∃ t, l = acc ++ t := by
  intro cells
  induction cells with
  | nil =>
    intro idx acc l h
    simp only [resolveGroup, Except.ok.injEq] at h
    exact ⟨[], by rw [← h, List.append_nil]⟩
  | cons c cs ih =>
    intro idx acc l h
    simp only [resolveGroup] at h
    split at h
    · exact ih _ _ _ h
    · split at h
      · exact absurd h (by simp)
      · split at h
        · exact ih _ _ _ h
        · rcases ih _ _ _ h with ⟨t, ht⟩
          exact ⟨_, by rw [ht, List.append_assoc]⟩

theorem resolveGroup_nodup {m : List (String × String)} {label : String} :
    ∀ (cells : List Cell) (idx : Nat) (acc l : List GroupEntry),
      resolveGroup m label idx cells acc = .ok l →
      (acc.map GroupEntry.gid).Nodup → (l.map GroupEntry.gid).Nodup := by
  intro cells
  induction cells with
  | nil =>
    intro idx acc l h hacc
    simp only [resolveGroup, Except.ok.injEq] at h
    exact h ▸ hacc
  | cons c cs ih =>
    intro idx acc l h hacc
    simp only [resolveGroup] at h
    split at h
    · exact ih _ _ _ h hacc
    · split at h
      · exact absurd h (by simp)
      · split at h
        · exact ih _ _ _ h hacc
        · rename_i hne hany
          apply ih _ _ _ h
          rw [List.map_append]
          apply List.Nodup.append hacc (List.nodup_singleton _)
          intro a ha hb
          rcases List.mem_singleton.mp hb with rfl
          rcases List.mem_map.mp ha with ⟨d, hd, hdg⟩
          exact hany (List.any_eq_true.mpr ⟨d, hd, by simp [hdg]⟩)

theorem resolveGroup_primary_false {m : List (String × String)} {label : String} :
    ∀ (cells : List Cell) (idx : Nat) (acc l : List GroupEntry), 1 ≤ idx →
      resolveGroup m label idx cells acc = .ok l →
      ∀ e ∈ l, e ∈ acc ∨ e.is_primary = false := by
  intro cells
  induction cells with
  | nil =>
    intro idx acc l _ h e he
    simp only [resolveGroup, Except.ok.injEq] at h
    exact Or.inl (h ▸ he)
  | cons c cs ih =>
    intro idx acc l hidx h e he
    simp only [resolveGroup] at h
    split at h
    · exact ih _ _ _ (Nat.le_succ_of_le hidx) h e he
    · split at h
      · exact absurd h (by simp)
      · split at h
        · exact ih _ _ _ (Nat.le_succ_of_le hidx) h e he
        · rcases ih _ _ _ (Nat.le_succ_of_le hidx) h e he with hin | hp
          · rcases List.mem_append.mp hin with hin | hin
            · exact Or.inl hin
            · rcases List.mem_singleton.mp hin with rfl
              refine Or.inr ?_
              simp only
              exact decide_eq_false (by omega)
          · exact Or.inr hp

/-- C1 counterexample: a record whose first movement-pattern entry is blank
(as the ones assembled by `get_exercises_list` can be) produces a surviving
list whose first entry is not marked primary. -/
theorem C1_counterexample :
    (getPayload ⟨[], [], [("squat", "mpsquat")], [], []⟩ [] noCreate
      { exercise_name := .str "Ex", instructions := .na, modality := none,
        category := .na, movement_patterns := [.str "", .str "squat"],
        muscle_groups := [], tracking_fields := [], video_link := .na,
        tags := [] }).toOption.map (fun p => p.movement_patterns) =
      some [{ is_primary := false, gid := "mpsquat" }] ∧
    ({ is_primary := false, gid := "mpsquat" } : GroupEntry).is_primary ≠ true :=
  ⟨rfl, by decide⟩

/-- C1 amended: in the lists `get_payload` builds, no two entries share a
resolved identifier (a duplicate is skipped, not re-added); an entry is
marked primary exactly when it comes from input position 0, so the first
surviving entry is primary whenever the first input entry is non-blank,
while a blank first input entry leaves every surviving entry unmarked; the
[squat, squat, lunge] example yields two entries with the first primary. -/
theorem C1_amended :
    (∀ (m : List (String × String)) (label : String) (cells : List Cell)
      (l : List GroupEntry),
      resolveGroup m label 0 cells [] = .ok l →
      ((l.map GroupEntry.gid).Nodup ∧
       (∀ c, cells.head? = some c → cellBlank c = false →
         ∃ g t, l = ⟨true, g⟩ :: t ∧ ∀ e ∈ t, e.is_primary = false) ∧
       (∀ c, cells.head? = some c → cellBlank c = true →
         ∀ e ∈ l, e.is_primary = false))) ∧
    (∀ (lt : LookupTables) (tagList : List (String × String))
      (createId : String → Option String) (info : ExerciseInfo) (p : Payload),
      getPayload lt tagList createId info = .ok p →
      resolveGroup lt.movementMap "Movement pattern" 0 info.movement_patterns [] =
        .ok p.movement_patterns ∧
      resolveGroup lt.muscleMap "Muscle group" 0 info.muscle_groups [] =
        .ok p.muscle_groups) ∧
    (resolveGroup [("squat", "A"), ("lunge", "B")] "Movement pattern" 0
      [Cell.str "squat", Cell.str "squat", Cell.str "lunge"] [] =
      .ok [⟨true, "A"⟩, ⟨false, "B"⟩]) := by
  refine ⟨?_, ?_, by rfl⟩
  · intro m label cells l h
    refine ⟨resolveGroup_nodup cells 0 [] l h (by simp), ?_, ?_⟩
    · intro c hc hblank
      cases cells with
      | nil => simp at hc
      | cons c0 cs =>
        have hc0 : c = c0 := by simpa using hc.symm
        subst hc0
        simp only [resolveGroup, hblank, Bool.false_eq_true, if_false] at h
        by_cases hg : (dictGet? m (normalizeKey (safeStr c))).getD "" = ""
        · rw [if_pos hg] at h
          exact absurd h (by simp)
        · rw [if_neg hg] at h
          simp only [List.any_nil, Bool.false_eq_true, if_false, List.nil_append] at h
          rcases resolveGroup_extends cs 1 _ l h with ⟨t, ht⟩
          refine ⟨(dictGet? m (normalizeKey (safeStr c))).getD "", t, ?_, ?_⟩
          · rw [ht]
            rfl
          · intro e he
            have hnd := resolveGroup_nodup cs 1 _ l h (by simp)
            have hmem : e ∈ l := by
              rw [ht]
              exact List.mem_append_right _ he
            rcases resolveGroup_primary_false cs 1 _ l (Nat.le_refl 1) h e hmem with hin | hp
            · rcases List.mem_singleton.mp hin with rfl
              exfalso
              rw [ht] at hnd
              simp only [List.cons_append, List.nil_append, List.map_cons,
                List.nodup_cons] at hnd
              exact hnd.1 (List.mem_map.mpr ⟨_, he, rfl⟩)
            · exact hp
    · intro c hc hblank
      cases cells with
      | nil => simp at hc
      | cons c0 cs =>
        have hc0 : c = c0 := by simpa using hc.symm
        subst hc0
        simp only [resolveGroup, hblank, if_true] at h
        intro e he
        rcases resolveGroup_primary_false cs 1 [] l (Nat.le_refl 1) h e he with hin | hp
        · exact absurd hin (List.not_mem_nil e)
        · exact hp
  · intro lt tagList createId info p h
    exact ⟨(getPayload_ok_parts h).2.1, (getPayload_ok_parts h).2.2.1⟩

/-- Witness for C1: the two-entry squat/lunge result has pairwise-distinct
identifiers and a primary first entry. -/
theorem C1_witness :
    (([⟨true, "A"⟩, ⟨false, "B"⟩] : List GroupEntry).map GroupEntry.gid).Nodup :=
  (C1_amended.1 [("squat", "A"), ("lunge", "B")] "Movement pattern"
    [Cell.str "squat", Cell.str "lunge"] [⟨true, "A"⟩, ⟨false, "B"⟩] (by rfl)).1

/-! ## C4 and C9: tag resolution -/

theorem processTags_congr {m : List (String × String)} {c : String → Option String} :
    ∀ (req s₁ s₂ : List String), (∀ x, x ∈ s₁ ↔ x ∈ s₂) →
      processTags m c req s₁ = processTags m c req s₂ := by
  intro req
  induction req with
  | nil => intro s₁ s₂ _; rfl
  | cons t rest ih =>
    intro s₁ s₂ hs
    simp only [processTags]
    by_cases h1 : t = "" ∨ t ∈ s₁
    · have h2 : t = "" ∨ t ∈ s₂ := by
        rcases h1 with h | h
        · exact Or.inl h
        · exact Or.inr ((hs t).mp h)
      rw [if_pos h1, if_pos h2]
      exact ih s₁ s₂ hs
    · have h2 : ¬ (t = "" ∨ t ∈ s₂) := by
        intro hc
        rcases hc with h | h
        · exact h1 (Or.inl h)
        · exact h1 (Or.inr ((hs t).mpr h))
      rw [if_neg h1, if_neg h2,
        ih (s₁ ++ [t]) (s₂ ++ [t]) (by intro x; simp [hs x])]

theorem processTags_spec {m : List (String × String)} {c : String → Option String} :
    ∀ (req seen : List String), "" ∉ req →
      (processTags m c req seen).1 =
        (dedupFirstAux req seen).map
          (fun n => match dictGet? m n with | some i => some i | none => c n) ∧
      (processTags m c req seen).2 =
        (dedupFirstAux req seen).filter (fun n => (dictGet? m n).isNone) := by
  intro req
  induction req with
  | nil => intro seen _; exact ⟨rfl, rfl⟩
  | cons t rest ih =>
    intro seen hne
    have ht : t ≠ "" := fun h => hne (h ▸ List.mem_cons_self t rest)
    have hrest : "" ∉ rest := fun h => hne (List.mem_cons_of_mem t h)
    simp only [processTags, dedupFirstAux]
    by_cases hts : t ∈ seen
    · rw [if_pos (Or.inr hts), if_pos hts]
      exact ih seen hrest
    · have hcond : ¬ (t = "" ∨ t ∈ seen) := by
        intro hc
        rcases hc with h | h
        · exact ht h
        · exact hts h
      rw [if_neg hcond, if_neg hts,
        processTags_congr rest (seen ++ [t]) (t :: seen) (by intro x; simp [or_comm])]
      obtain ⟨ih1, ih2⟩ := ih (t :: seen) hrest
      cases hd : dictGet? m t with
      | some tid =>
        constructor
        · simp [hd, ih1]
        · simp [hd, ih2, List.filter_cons]
      | none =>
        constructor
        · simp [hd, ih1]
        · simp [hd, ih2, List.filter_cons]

theorem dedupFirstAux_nodup :
    ∀ (l seen : List String),
      (dedupFirstAux l seen).Nodup ∧ ∀ x ∈ dedupFirstAux l seen, x ∉ seen := by
  intro l
  induction l with
  | nil => intro seen; exact ⟨List.nodup_nil, by simp [dedupFirstAux]⟩
  | cons t rest ih =>
    intro seen
    simp only [dedupFirstAux]
    by_cases ht : t ∈ seen
    · rw [if_pos ht]
      exact ih seen
    · rw [if_neg ht]
      obtain ⟨hnd, hmem⟩ := ih (t :: seen)
      refine ⟨List.nodup_cons.mpr ⟨fun hx => (hmem t hx) (List.mem_cons_self t seen), hnd⟩, ?_⟩
      intro x hx
      rcases List.mem_cons.mp hx with rfl | hx'
      · exact ht
      · exact fun hxs => hmem x hx' (List.mem_cons_of_mem t hxs)

/-- C4: within one `get_payload` call, requested tag names are deduplicated
by exact string comparison with order preserved; a distinct name present in
the (once-fetched) platform tag list triggers no create-tag request and
contributes the existing identifier; a distinct absent name triggers exactly
one create-tag request and contributes the identifier that request returns;
and the payload's tags list is exactly the tag loop's output. -/
theorem C4_tag_resolution :
    (∀ (mappings : List (String × String)) (createId : String → Option String)
      (requested : List String), "" ∉ requested →
      ((processTags mappings createId requested []).1 =
        (dedupFirst requested).map
          (fun n => match dictGet? mappings n with | some i => some i | none => createId n) ∧
       (processTags mappings createId requested []).2 =
        (dedupFirst requested).filter (fun n => (dictGet? mappings n).isNone) ∧
       (∀ n ∈ dedupFirst requested, dictGet? mappings n = none →
         (processTags mappings createId requested []).2.count n = 1) ∧
       (∀ n ∈ dedupFirst requested, ∀ i, dictGet? mappings n = some i →
         n ∉ (processTags mappings createId requested []).2))) ∧
    (∀ (lt : LookupTables) (tagList : List (String × String))
      (createId : String → Option String) (info : ExerciseInfo) (p : Payload),
      getPayload lt tagList createId info = .ok p →
      p.tags = (processTags (createTagMappings tagList) createId info.tags []).1) := by
  constructor
  · intro mappings createId requested hne
    obtain ⟨h1, h2⟩ := processTags_spec requested [] hne
    refine ⟨h1, h2, ?_, ?_⟩
    · intro n hn hlook
      rw [h2]
      apply List.count_eq_one_of_mem
      · exact List.Nodup.filter _ (dedupFirstAux_nodup requested []).1
      · rw [List.mem_filter]
        exact ⟨hn, by simp [hlook]⟩
    · intro n hn i hlook hmem
      rw [h2] at hmem
      have := (List.mem_filter.mp hmem).2
      simp [hlook] at this
  · intro lt tagList createId info p h
    exact (getPayload_ok_parts h).2.2.2.2

/-- Witness for C4: with "existing" already on the platform and "newtag"
absent, the request list ["existing", "newtag", "existing"] issues exactly
one create-tag request, for "newtag". -/
theorem C4_witness :
    (processTags [("existing", "id1")] (fun n => some ("x" ++ n))
      ["existing", "newtag", "existing"] []).2.count "newtag" = 1 :=
  (C4_tag_resolution.1 [("existing", "id1")] (fun n => some ("x" ++ n))
    ["existing", "newtag", "existing"] (by decide)).2.2.1 "newtag" (by decide) (by rfl)

theorem processTags_none_mem {m : List (String × String)} {c : String → Option String} :
    ∀ (req seen : List String) (t : String),
      t ∈ req → t ∉ seen → t ≠ "" → dictGet? m t = none → c t = none →
      none ∈ (processTags m c req seen).1 := by
  intro req
  induction req with
  | nil => intro seen t ht; exact absurd ht (List.not_mem_nil t)
  | cons h rest ih =>
    intro seen t htmem htseen htne hlook hc
    simp only [processTags]
    by_cases hcond : h = "" ∨ h ∈ seen
    · rw [if_pos hcond]
      have htr : t ∈ rest := by
        rcases List.mem_cons.mp htmem with rfl | htr
        · rcases hcond with h1 | h1
          · exact absurd h1 htne
          · exact absurd h1 htseen
        · exact htr
      exact ih seen t htr htseen htne hlook hc
    · rw [if_neg hcond]
      by_cases hth : t = h
      · subst hth
        simp [hlook, hc]
      · have htr : t ∈ rest := by
          rcases List.mem_cons.mp htmem with rfl | htr
          · exact absurd rfl hth
          · exact htr
        have htseen' : t ∉ seen ++ [h] := by
          simp [htseen, hth]
        cases hd : dictGet? m h with
        | some i =>
          simp only [hd]
          exact List.mem_cons_of_mem _ (ih (seen ++ [h]) t htr htseen' htne hlook hc)
        | none =>
          simp only [hd]
          exact List.mem_cons_of_mem _ (ih (seen ++ [h]) t htr htseen' htne hlook hc)

/-- C9: when a requested tag name is absent from the platform's tag list and
the create-tag call fails (returns None), `get_payload` does not raise and
does not skip the tag — the None itself lands in the payload's tags list;
moreover whether `get_payload` succeeds never depends on the create-tag
results. -/
theorem C9_none_tag_appended :
    (∀ (lt : LookupTables) (tagList : List (String × String))
      (createId : String → Option String) (info : ExerciseInfo) (t : String)
      (tgs : List (Option String)),
      t ∈ info.tags → t ≠ "" → dictGet? (createTagMappings tagList) t = none →
      createId t = none →
      (getPayload lt tagList createId info).toOption.map (fun p => p.tags) = some tgs →
      none ∈ tgs) ∧
    (∀ (lt : LookupTables) (tagList : List (String × String))
      (c₁ c₂ : String → Option String) (info : ExerciseInfo),
      exOk (getPayload lt tagList c₁ info) = exOk (getPayload lt tagList c₂ info)) := by
  constructor
  · intro lt tagList createId info t tgs htmem htne hlook hc h
    cases hp : getPayload lt tagList createId info with
    | error e => rw [hp] at h; simp [Except.toOption] at h
    | ok p =>
      rw [hp] at h
      simp only [Except.toOption, Option.map_some', Option.some.injEq] at h
      subst h
      rw [(getPayload_ok_parts hp).2.2.2.2]
      exact processTags_none_mem info.tags [] t htmem (List.not_mem_nil t) htne hlook hc
  · intro lt tagList c₁ c₂ info
    unfold getPayload
    cases resolveModality lt.modalityMap info.modality with
    | error e => rfl
    | ok modId =>
      cases resolveGroup lt.movementMap "Movement pattern" 0 info.movement_patterns [] with
      | error e => rfl
      | ok mps =>
        cases resolveGroup lt.muscleMap "Muscle group" 0 info.muscle_groups [] with
        | error e => rfl
        | ok mgs => rfl

/-- Witness for C9: a record requesting the absent tag "newtag" while tag
creation fails yields a payload whose tags list contains None. -/
theorem C9_witness : none ∈ ([none] : List (Option String)) :=
  C9_none_tag_appended.1 ⟨[], MODALITY_MAP_model, [], [], []⟩ [] noCreate
    { exercise_name := .str "Ex", instructions := .na, modality := some "",
      category := .str "", movement_patterns := [], muscle_groups := [],
      tracking_fields := [], video_link := .na, tags := ["newtag"] } "newtag" [none]
    (by decide) (by decide) (by rfl) (by rfl) (by rfl)

/-! ## C7: the bilingual instructions blob -/

theorem zipLongest_eq_zip {fill : String} :
    ∀ (as bs : List String), as.length = bs.length → zipLongest fill as bs = as.zip bs := by
  intro as
  induction as with
  | nil =>
    intro bs h
    cases bs with
    | nil => rfl
    | cons b bs' => simp at h
  | cons a as ih =>
    intro bs h
    cases bs with
    | nil => simp at h
    | cons b bs' =>
      have hstep : zipLongest fill (a :: as) (b :: bs') =
          (a, b) :: zipLongest fill as bs' := rfl
      rw [hstep, ih bs' (by simpa using h)]
      rfl

theorem pairJoin_eq {a b : String} (ha : a ≠ "") (hb : b ≠ "") :
    pairJoin a b = a ++ " | " ++ b := by
  simp [pairJoin, joinSep, List.filter_cons, ha, hb]

theorem map_pairJoin_zip :
    ∀ (e s : List String), (∀ t ∈ e, t ≠ "") → (∀ t ∈ s, t ≠ "") →
      (e.zip s).map (fun p => pairJoin p.1 p.2) =
        List.zipWith (fun a b => a ++ " | " ++ b) e s := by
  intro e
  induction e with
  | nil => intro s _ _; cases s <;> rfl
  | cons a as ih =>
    intro s he hs
    cases s with
    | nil => rfl
    | cons b bs =>
      simp only [List.zip_cons_cons, List.map_cons, List.zipWith_cons_cons]
      rw [pairJoin_eq (he a (List.mem_cons_self a as)) (hs b (List.mem_cons_self b bs)),
        ih bs (fun t ht => he t (List.mem_cons_of_mem a ht))
          (fun t ht => hs t (List.mem_cons_of_mem b ht))]

/-- C7: the reader splits each instruction cell on ";", trims and drops
empty tokens, strips leading numeric markers, pairs English token i with
Spanish token i joined by " | ", and joins the pairs with newlines — and on
the quoted example it produces exactly "Do X | Haz X\nDo Y | Haz Y". -/
theorem C7_instructions_blob :
    (buildInstructionsBlob (Cell.str "1. Do X;2. Do Y") (Cell.str "1. Haz X;2. Haz Y") =
      "Do X | Haz X\nDo Y | Haz Y") ∧
    (∀ (eng spa : Cell),
      ((safeStringSplit eng).map stripNumbering).length =
        ((safeStringSplit spa).map stripNumbering).length →
      (∀ t ∈ (safeStringSplit eng).map stripNumbering, t ≠ "") →
      (∀ t ∈ (safeStringSplit spa).map stripNumbering, t ≠ "") →
      buildInstructionsBlob eng spa =
        joinSep (String.singleton (Char.ofNat 10))
          (List.zipWith (fun a b => a ++ " | " ++ b)
            ((safeStringSplit eng).map stripNumbering)
            ((safeStringSplit spa).map stripNumbering))) := by
  refine ⟨by rfl, ?_⟩
  intro eng spa hlen he hs
  unfold buildInstructionsBlob
  dsimp only
  rw [zipLongest_eq_zip _ _ hlen, map_pairJoin_zip _ _ he hs]

/-- Witness for C7: two-token cells "A;B" and "C;D" produce the pairwise
" | "-joined, newline-joined blob. -/
theorem C7_witness :
    buildInstructionsBlob (Cell.str "A;B") (Cell.str "C;D") =
      joinSep (String.singleton (Char.ofNat 10))
        (List.zipWith (fun a b => a ++ " | " ++ b)
          ((safeStringSplit (Cell.str "A;B")).map stripNumbering)
          ((safeStringSplit (Cell.str "C;D")).map stripNumbering)) :=
  C7_instructions_blob.2 (Cell.str "A;B") (Cell.str "C;D") (by rfl) (by decide) (by decide)

/-! ## C5: the API client's failure policy -/

/-- C5 counterexample: with a valid token, `get_exercises` receives a 2xx
response announcing one exercise and a 2xx JSON object lacking the "data"
key, and propagates an uncaught KeyError after two requests — not an
input-validation failure and not a None result. -/
theorem C5_counterexample :
    getExercisesM "tok"
        (fun k => if k = 0 then .json (.obj [("total", .num 1)]) else .json (.obj [])) =
      (.error (.keyError "data"), 2) ∧
    pyStrip "tok" ≠ "" :=
  ⟨rfl, by decide⟩

/-- C5 amended: network-layer errors, non-2xx statuses and JSON-parse
failures make every operation return None (or the empty tag list) without
raising at whichever request they strike — the single request of the
one-call operations, and either the count request or the fetch-all request
of `get_exercises` and `get_tag_list` — and input-validation failures
(blank credentials, blank token, non-dict payload, blank tag name) raise
before any request is made; a 2xx response whose parsed JSON lacks the
expected structure can however still propagate an uncaught exception, as
the counterexample shows. -/
theorem C5_amended :
    (∀ (resp : Nat → HttpOutcome) (email pw tok tag eid : String) (payload : Json),
      (resp 0 = .netErr ∨ resp 0 = .badJson) →
      pyStrip email ≠ "" → pyStrip pw ≠ "" → pyStrip tok ≠ "" → pyStrip tag ≠ "" →
      jIsObj payload = true →
      (loginM email pw resp).1 = .ok none ∧
      (putExerciseM tok eid payload resp).1 = .ok none ∧
      (postExerciseM payload tok resp).1 = .ok none ∧
      (getExercisesM tok resp).1 = .ok none ∧
      (getTagListM tok resp).1 = .ok none ∧
      (createNewTagIdM tok tag resp).1 = .ok none) ∧
    (∀ (resp : Nat → HttpOutcome) (fs : List (String × Json)) (n : Int) (tok : String),
      pyStrip tok ≠ "" → resp 0 = .json (.obj fs) →
      jLookup fs "total" = some (.num n) → 0 < n →
      (resp 1 = .netErr ∨ resp 1 = .badJson) →
      getExercisesM tok resp = (.ok none, 2)) ∧
    (∀ (resp : Nat → HttpOutcome) (fs dfs : List (String × Json)) (n : Int) (tok : String),
      pyStrip tok ≠ "" → resp 0 = .json (.obj fs) →
      jLookup fs "data" = some (.obj dfs) →
      jLookup dfs "total" = some (.num n) → 0 < n →
      (resp 1 = .netErr ∨ resp 1 = .badJson) →
      getTagListM tok resp = (.ok none, 2)) ∧
    (∀ (e p : String) (r : Nat → HttpOutcome), pyStrip e = "" ∨ pyStrip p = "" →
      (loginM e p r).2 = 0 ∧ exIsValueError (loginM e p r).1 = true) ∧
    (∀ (t i : String) (pl : Json) (r : Nat → HttpOutcome),
      jIsObj pl = false ∨ pyStrip t = "" →
      ((putExerciseM t i pl r).2 = 0 ∧ exIsValueError (putExerciseM t i pl r).1 = true) ∧
      ((postExerciseM pl t r).2 = 0 ∧ exIsValueError (postExerciseM pl t r).1 = true)) ∧
    (∀ (t : String) (r : Nat → HttpOutcome), pyStrip t = "" →
      ((getExercisesM t r).2 = 0 ∧ exIsValueError (getExercisesM t r).1 = true) ∧
      ((getTagListM t r).2 = 0 ∧ exIsValueError (getTagListM t r).1 = true)) ∧
    (∀ (t g : String) (r : Nat → HttpOutcome), pyStrip t = "" ∨ pyStrip g = "" →
      (createNewTagIdM t g r).2 = 0 ∧ exIsValueError (createNewTagIdM t g r).1 = true) := by
  refine ⟨?_, ?_, ?_, ?_, ?_, ?_, ?_⟩
  · intro resp email pw tok tag eid payload hfail he hp ht hg hpl
    refine ⟨?_, ?_, ?_, ?_, ?_, ?_⟩
    · rcases hfail with h0 | h0 <;> simp [loginM, he, hp, h0]
    · rcases hfail with h0 | h0 <;> simp [putExerciseM, ht, hpl, h0]
    · rcases hfail with h0 | h0 <;> simp [postExerciseM, ht, hpl, h0]
    · rcases hfail with h0 | h0 <;> simp [getExercisesM, ht, h0]
    · rcases hfail with h0 | h0 <;> simp [getTagListM, ht, h0]
    · rcases hfail with h0 | h0 <;> simp [createNewTagIdM, ht, hg, h0]
  · intro resp fs n tok ht h0 htot hn h1
    have hn' : ¬ n ≤ 0 := by omega
    rcases h1 with h1 | h1 <;> simp [getExercisesM, ht, h0, htot, hn', h1]
  · intro resp fs dfs n tok ht h0 hdata htot hn h1
    have hn' : ¬ n ≤ 0 := by omega
    rcases h1 with h1 | h1 <;> simp [getTagListM, ht, h0, hdata, htot, hn', h1]
  · intro e p r h
    rcases h with h | h
    · simp [loginM, h, exIsValueError]
    · by_cases he' : pyStrip e = "" <;> simp [loginM, he', h, exIsValueError]
  · intro t i pl r h
    rcases h with h | h
    · simp [putExerciseM, postExerciseM, h, exIsValueError]
    · by_cases hobj : jIsObj pl = true <;>
        simp [putExerciseM, postExerciseM, hobj, h, exIsValueError]
  · intro t r h
    simp [getExercisesM, getTagListM, h, exIsValueError]
  · intro t g r h
    rcases h with h | h
    · simp [createNewTagIdM, h, exIsValueError]
    · by_cases ht' : pyStrip t = "" <;> simp [createNewTagIdM, ht', h, exIsValueError]

/-- Witness for C5: `get_exercises` whose count request succeeds with total
3 but whose fetch-all request hits a transport failure returns None after
two requests, without raising. -/
theorem C5_witness :
    getExercisesM "tok"
        (fun k => if k = 0 then .json (.obj [("total", .num 3)]) else .netErr) =
      (.ok none, 2) :=
  C5_amended.2.1 (fun k => if k = 0 then .json (.obj [("total", .num 3)]) else .netErr)
    [("total", .num 3)] 3 "tok" (by decide) (by rfl) (by rfl) (by decide) (Or.inl rfl)

end Everfit
